import Mathlib

/-!
Shallow embedding of the task-orchestration core of the yt-dlp-GUI
repository: the global event queue (src/core/queue_manager.py), the
subprocess wrapper and its output classifier
(src/services/ytdlp_wrapper.py), and the download manager
(src/core/download_manager.py).  Filesystem probes, the subprocess
itself and thread scheduling are oracles passed in explicitly; every
other definition is a direct translation of the Python source.
-/

namespace YtDlpGUI

/-! Messages of the global event queue (queue_manager.py).
`put_message(msg_type, payload, task_id)` enqueues a dict with keys
"type", "payload", "task_id".  Payloads occurring in the source are
plain strings, the progress dict built in `_parse_output`
(keys "percent", "raw") and the synthetic completion progress dict built
in `download` (keys "percent", "eta", "speed"). -/

inductive MsgPayload where
  | text (s : String)
  | progRaw (percent : String) (raw : String)
  | progFull (percent : String) (eta : String) (speed : String)
deriving DecidableEq, Repr

structure Msg where
  type : String
  payload : MsgPayload
  task_id : String
deriving DecidableEq, Repr

/-! Character-list string utilities used to embed Python's `in`
  (substring containment), `str.lower`, and the regular expression of
  `_parse_output`. -/

/-- Python list/str prefix test on character lists. -/
def startsWithL : List Char → List Char → Bool
  | [], _ => true
  | _ :: _, [] => false
  | p :: ps, c :: cs => p == c && startsWithL ps cs

/-- Python `needle in haystack` substring containment on character lists. -/
def containsL (needle : List Char) : List Char → Bool
  | [] => needle.isEmpty
  | c :: cs => startsWithL needle (c :: cs) || containsL needle cs

/-- Number of start positions at which `needle` occurs in the haystack. -/
def countOccL (needle : List Char) : List Char → Nat
  | [] => 0
  | c :: cs => (if startsWithL needle (c :: cs) then 1 else 0) + countOccL needle cs

/-- Python `str.lower` (ASCII fragment). -/
def lowerL (cs : List Char) : List Char := cs.map Char.toLower

/-! Embedding of the regular expression `(\d{1,3}\.\d)%` used with
`re.search` in `_parse_output` (ytdlp_wrapper.py line 319): at a given
position, `\d{1,3}` greedily tries three, then two, then one digit,
followed by a literal dot, one digit and a literal percent sign;
`re.search` scans positions left to right.  The returned string is
capture group 1 (digits, dot, fractional digit — without the `%`). -/

/-- Try to match a k-digit run, then dot, digit, percent at the head of `cs`; returns group 1. -/
def tryDigits (cs : List Char) (k : Nat) : Option String :=
  let ds := cs.take k
  if ds.length = k && ds.all Char.isDigit then
    match cs.drop k with
    | '.' :: d :: '%' :: _ =>
        if d.isDigit then some (String.mk (ds ++ ['.', d])) else none
    | _ => none
  else none

/-- Match `(\d{1,3}\.\d)%` anchored at the head of `cs` (greedy on the
integer digits, with backtracking). -/
def matchPercentAt (cs : List Char) : Option String :=
  match tryDigits cs 3 with
  | some s => some s
  | none =>
    match tryDigits cs 2 with
    | some s => some s
    | none => tryDigits cs 1

/-- Leftmost search for the percent pattern, as `re.search` does. -/
def searchPercent : List Char → Option String
  | [] => none
  | c :: cs =>
    match matchPercentAt (c :: cs) with
    | some s => some s
    | none => searchPercent cs

/-- Group 1 of `re.search(r'(\d\x7b1,3\x7d\.\d)%', line)`, if any. -/
def findPercent (line : String) : Option String := searchPercent line.data

/-! The output classifier `YtDlpWrapper._parse_output`
(ytdlp_wrapper.py lines 309-332). -/

/-- Condition of the first `elif` branch of `_parse_output`:
the lowercased line contains `[download]` or `[merger]`. -/
def hasPhaseMarker (line : String) : Bool :=
  containsL "[download]".data (lowerL line.data) ||
    containsL "[merger]".data (lowerL line.data)

/-- Condition of the second `elif` branch of `_parse_output`:
the line contains `Downloading` or `Extracting` (case sensitive). -/
def hasDownloadingExtracting (line : String) : Bool :=
  containsL "Downloading".data line.data || containsL "Extracting".data line.data

/-- The structured message produced by the `if`/`elif` chain of
`_parse_output` for one line: a progress message when the percent regex
matches (percent string is group 1 plus a percent sign, raw line kept),
otherwise a status message for a phase-marker or Downloading/Extracting
line, otherwise nothing. -/
def structuredMsg (line task_id : String) : List Msg :=
  match findPercent line with
  | some p => [⟨"progress", MsgPayload.progRaw (p ++ "%") line, task_id⟩]
  | none =>
    if hasPhaseMarker line then [⟨"status", MsgPayload.text line, task_id⟩]
    else if hasDownloadingExtracting line then
      [⟨"status", MsgPayload.text line, task_id⟩]
    else []

/-- `YtDlpWrapper._parse_output(line, task_id)`: the `if`/`elif` chain
pushes at most one structured message, and the final unconditional
`put_message("log", line, task_id)` (line 332) forwards every line to
the queue as a log message. -/
def parse_output (line task_id : String) : List Msg :=
  structuredMsg line task_id ++ [⟨"log", MsgPayload.text line, task_id⟩]

/-! Python exceptions raised by the embedded code. -/

inductive PyError where
  | attributeError (cls attr : String)
  | fileNotFoundError (msg : String)
deriving DecidableEq, Repr

/-! Filesystem and platform oracle for `_find_ytdlp_executable`
(ytdlp_wrapper.py lines 27-70).  Each field records the outcome of one
probe the Python function performs. -/

structure FsEnv where
  /-- Result of `Path(custom_path).exists()`. -/
  customExists : Bool
  /-- Result of `bin_ytdlp.exists()` for the project `bin/` candidate. -/
  binExists : Bool
  /-- The string `str(bin_ytdlp)`. -/
  binPath : String
  /-- Whether `sys.prefix != sys.base_prefix` (running inside a venv). -/
  inVenv : Bool
  /-- Result of `venv_ytdlp.exists()`. -/
  venvExists : Bool
  /-- The string `str(venv_ytdlp)`. -/
  venvPath : String
  /-- Result of `shutil.which('yt-dlp')` (`none` models Python `None`). -/
  whichResult : Option String
deriving DecidableEq, Repr

/-- `_find_ytdlp_executable(custom_path)` (ytdlp_wrapper.py lines
27-70): custom path first (only when the string is non-empty, Python
truthiness, and it exists), then the project `bin/` folder, then the
virtualenv, then `shutil.which`; raises `FileNotFoundError` when all
four probes fail. -/
def find_ytdlp_executable (env : FsEnv) (custom_path : String) :
    Except PyError String :=
  if custom_path ≠ "" && env.customExists then Except.ok custom_path
  else if env.binExists then Except.ok env.binPath
  else if env.inVenv && env.venvExists then Except.ok env.venvPath
  else
    match env.whichResult with
    | some found => Except.ok found
    | none => Except.error (PyError.fileNotFoundError
        "yt-dlp not found. Please download it and configure the path in Settings.")

/-! The subprocess wrapper `class YtDlpWrapper`
(ytdlp_wrapper.py lines 101-332). -/

/-- Instance state of a `YtDlpWrapper` object: `self.process` (a
`subprocess.Popen` handle or `None`, modelled as an optional pid),
`self._stop_event` (a `threading.Event`, modelled by whether it is
set), and the two path strings fixed by `__init__`. -/
structure YtDlpWrapper where
  process : Option Nat
  stop_event : Bool
  ytdlp_path : String
  ffmpeg_path : String
deriving DecidableEq, Repr

/-- `YtDlpWrapper.__init__(ytdlp_path, ffmpeg_path)` (lines 106-111):
resolves the executable (which may raise `FileNotFoundError`), then
starts with no process and a cleared stop event. -/
def mkYtDlpWrapper (env : FsEnv) (ytdlp_path ffmpeg_path : String) :
    Except PyError YtDlpWrapper :=
  match find_ytdlp_executable env ytdlp_path with
  | Except.error e => Except.error e
  | Except.ok p => Except.ok ⟨none, false, p, ffmpeg_path⟩

/-- `YtDlpWrapper.cancel` (lines 301-307): `if self.process:` — a
`Popen` object is always truthy, so the stop event is set exactly when
`self.process` is not `None`; otherwise nothing happens. -/
def YtDlpWrapper.cancel (w : YtDlpWrapper) : YtDlpWrapper :=
  if w.process.isSome then { w with stop_event := true } else w

/-- Dynamic attribute lookup on a `YtDlpWrapper` instance, restricted
to zero-argument state-mutating methods (the only signature class
invoked dynamically in the repository, at download_manager.py line
104).  `class YtDlpWrapper` defines the methods `__init__`,
`get_metadata`, `download`, `cancel`, `_parse_output` and the instance
attributes `process`, `_stop_event`, `_ytdlp_path`, `_ffmpeg_path`;
the sole zero-argument mutator is `cancel`.  Looking up any other name
in this signature class yields `none`, which the caller turns into an
`AttributeError` exactly as Python does. -/
def wrapperNullaryMethod : String → Option (YtDlpWrapper → YtDlpWrapper)
  | "cancel" => some YtDlpWrapper.cancel
  | _ => none

/-! The download manager (download_manager.py). -/

/-- `self.active_downloads`: dict from task id to wrapper, modelled as
an association list. -/
structure DownloadManager where
  active_downloads : List (String × YtDlpWrapper)
deriving DecidableEq, Repr

/-- Python `d[k]` / `k in d` lookup on the association-list dict. -/
def lookupTask : List (String × YtDlpWrapper) → String → Option YtDlpWrapper
  | [], _ => none
  | (k, w) :: rest, id => if k = id then some w else lookupTask rest id

/-- Python `del d[k]` on the association-list dict. -/
def removeTask (l : List (String × YtDlpWrapper)) (id : String) :
    List (String × YtDlpWrapper) :=
  l.filter (fun kv => kv.1 ≠ id)

/-- Python `d[k] = v` on the association-list dict. -/
def insertTask (l : List (String × YtDlpWrapper)) (id : String)
    (w : YtDlpWrapper) : List (String × YtDlpWrapper) :=
  removeTask l id ++ [(id, w)]

/-- `DownloadManager.cancel_download(task_id)` (download_manager.py
lines 97-104).  The body is: `if task_id in self.active_downloads:
self.active_downloads[task_id].stop()`.  When the id is unknown the
call does nothing and the function returns `None` (there is no
`return` statement).  When the id is found, Python looks up the
attribute `stop` on the wrapper object; the result triple is the new
manager state, the queue messages published, and the outcome — where
`Except.ok v` is a normal return of the Python value `v` (`none`
standing for Python `None`) and `Except.error` a raised exception. -/
def cancel_download (dm : DownloadManager) (task_id : String) :
    DownloadManager × List Msg × Except PyError (Option Bool) :=
  match lookupTask dm.active_downloads task_id with
  | none => (dm, [], Except.ok none)
  | some w =>
    match wrapperNullaryMethod "stop" with
    | some f => (⟨insertTask dm.active_downloads task_id (f w)⟩, [], Except.ok none)
    | none => (dm, [], Except.error (PyError.attributeError "YtDlpWrapper" "stop"))

/-! Settings collaborator (settings_manager.py), used by
`start_download` through `self.settings.get(key) or default`. -/

/-- The JSON key-value store, modelled as an association list. -/
structure SettingsManager where
  entries : List (String × String)
deriving DecidableEq, Repr

/-- `self.settings.get(key) or default`: Python `or` substitutes the
default both when the key is missing (`get` returns `None`) and when
the stored value is falsy (the empty string). -/
def settingsGetOr (st : SettingsManager) (key dflt : String) : String :=
  match lookupStr st.entries key with
  | some v => if v = "" then dflt else v
  | none => dflt
where
  lookupStr : List (String × String) → String → Option String
    | [], _ => none
    | (k, v) :: rest, key => if k = key then some v else lookupStr rest key

/-- Output-template resolution in `start_download` (download_manager.py
lines 54-58): if the naming pattern does not contain the substring
`%(ext)s`, append `.%(ext)s` after joining with the download folder;
otherwise join unchanged. -/
def resolve_output_template (naming_pattern download_folder : String) : String :=
  if containsL "%(ext)s".data naming_pattern.data then
    download_folder ++ "/" ++ naming_pattern
  else
    download_folder ++ "/" ++ naming_pattern ++ ".%(ext)s"

/-- The arguments `start_download` hands to the worker thread
(download_manager.py lines 64-70). -/
structure WorkerArgs where
  wrapper : YtDlpWrapper
  url : String
  task_id : String
  output_template : String
  cookies_path : String
  cookies_browser : String
deriving DecidableEq, Repr

/-- Options dict passed from the UI (`get_download_options` in
app.py); `none` models an absent key, so `Option.getD` reproduces
`options.get(key, default)` and Python truthiness of the stored
value. -/
structure DlOptions where
  download_video : Option Bool
  audio_only : Option Bool
  format : Option String
  save_thumbnail : Option Bool
  embed_thumbnail : Option Bool
deriving DecidableEq, Repr

/-- Truthiness of `options.get("format")`: present and non-empty. -/
def formatTruthy (o : DlOptions) : Bool :=
  match o.format with
  | some s => s ≠ ""
  | none => false

/-- `DownloadManager.start_download(url, options)` (download_manager.py
lines 24-73), with the fresh `uuid.uuid4()` supplied as `task_id` and
the filesystem oracle threaded through to the wrapper constructor.
Returns the new manager state, the queue messages published
synchronously (none — the worker runs in its own thread), and either
the raised exception or the returned task id together with the worker
arguments of the spawned thread.  The wrapper is constructed at line
45, before the registry insertion at line 48: a constructor failure
therefore propagates with the manager unchanged and nothing
registered. -/
def start_download (env : FsEnv) (st : SettingsManager)
    (dm : DownloadManager) (task_id url : String) (_options : DlOptions) :
    DownloadManager × List Msg × Except PyError (String × WorkerArgs) :=
  let ytdlp_path := settingsGetOr st "ytdlp_path" ""
  let ffmpeg_path := settingsGetOr st "ffmpeg_path" ""
  match mkYtDlpWrapper env ytdlp_path ffmpeg_path with
  | Except.error e => (dm, [], Except.error e)
  | Except.ok w =>
    let dm2 : DownloadManager := ⟨insertTask dm.active_downloads task_id w⟩
    let naming_pattern := settingsGetOr st "naming_pattern" "%(title)s.%(ext)s"
    let download_folder := settingsGetOr st "download_path" "."
    let output_template := resolve_output_template naming_pattern download_folder
    let cookies_path := settingsGetOr st "cookies_path" ""
    let cookies_browser := settingsGetOr st "cookies_browser" ""
    (dm2, [],
      Except.ok (task_id, ⟨w, url, task_id, output_template, cookies_path, cookies_browser⟩))

/-! Command construction in `YtDlpWrapper.download`
(ytdlp_wrapper.py lines 192-240). -/

/-- Split a character list on a separator character. -/
def splitSep (sep : Char) : List Char → List (List Char)
  | [] => [[]]
  | c :: cs =>
    match splitSep sep cs with
    | [] => if c = sep then [[], []] else [[c]]
    | h :: t => if c = sep then [] :: h :: t else (c :: h) :: t

/-- Join character-list segments with a separator character. -/
def joinSep (sep : Char) : List (List Char) → List Char
  | [] => []
  | [x] => x
  | x :: xs => x ++ sep :: joinSep sep xs

/-- Python `str(Path(p).parent)` for normalized POSIX-style path
strings (the fragment of `pathlib` semantics the source exercises):
drop the final slash-separated segment, `"."` when there is no
directory part. -/
def parentDir (p : String) : String :=
  match splitSep '/' p.data with
  | [] => "."
  | [_] => "."
  | parts => String.mk (joinSep '/' parts.dropLast)

/-- The argument vector built by `YtDlpWrapper.download` before
spawning the subprocess (lines 192-240), translated branch by branch:
base flags and progress template; `--skip-download` when
`download_video` is falsy; the audio-extraction block when
`audio_only` is truthy and `download_video` is truthy (defaulting to
`True`), else `-f <format>` when `format` is truthy; the thumbnail
blocks; `--ffmpeg-location` when a non-empty ffmpeg path was given;
cookie flags; and the url last. -/
def build_cmd (w : YtDlpWrapper) (url output_template cookies_path
    cookies_browser : String) (options : DlOptions) : List String :=
  let base := [w.ytdlp_path, "--newline", "--no-colors", "--no-playlist",
    "-o", output_template, "--progress-template",
    "%(progress._percent_str)s:%(progress._eta_str)s:%(progress._speed_str)s"]
  let c1 := base ++
    (if !(options.download_video.getD true) then ["--skip-download"] else [])
  let c2 := c1 ++
    (if options.audio_only.getD false && options.download_video.getD true then
      ["-x", "--audio-format", "mp3", "--audio-quality", "0"]
    else if formatTruthy options then ["-f", options.format.getD ""]
    else [])
  let c3 := c2 ++
    (if options.save_thumbnail.getD false then
      ["--write-thumbnail", "--convert-thumbnails", "jpg"] else [])
  let c4 := c3 ++
    (if options.embed_thumbnail.getD false && options.download_video.getD true then
      ["--embed-thumbnail", "--convert-thumbnails", "jpg"] ++
        (if !(options.audio_only.getD false) then
          ["--merge-output-format", "mp4"] else [])
    else [])
  let c5 := c4 ++
    (if w.ffmpeg_path ≠ "" then
      ["--ffmpeg-location", parentDir w.ffmpeg_path] else [])
  let c6 := c5 ++
    (if cookies_path ≠ "" then ["--cookies", cookies_path]
    else if cookies_browser ≠ "" then
      ["--cookies-from-browser", cookies_browser]
    else [])
  c6 ++ [url]

/-! The read loop and terminal dispatch of `YtDlpWrapper.download`
(ytdlp_wrapper.py lines 242-299).  The subprocess is an oracle: the
lines its merged stdout/stderr stream yields before EOF, the exit code
`poll()` reports once the stream has ended, and what `poll()` reports
right after `terminate()` (often `None`, since `terminate` does not
wait).  A concurrent `cancel` is modelled by the loop-iteration index
at which `self._stop_event.is_set()` first becomes true: iteration `i`
checks the flag, then reads `lines[i]` (EOF once the list is
exhausted); the final `elif self._stop_event.is_set()` at line 287 is
one further check, at index `lines.length + 1`. -/

structure SubprocBehavior where
  lines : List String
  exitCode : Int
  termPoll : Option Int
deriving DecidableEq, Repr

/-- Whether the loop body observed the stop flag and broke via
`terminate` (line 266-268): true when the flag was set by some
iteration index at most `lines.length` (the EOF iteration included,
since the flag is checked before the read). -/
def stopObservedInLoop (run : SubprocBehavior) (stopAt : Option Nat) : Bool :=
  match stopAt with
  | some k => decide (k ≤ run.lines.length)
  | none => false

/-- Whether `self._stop_event.is_set()` is true at the terminal
dispatch (line 287): the flag became set during the loop or between
loop exit and the dispatch. -/
def stopSetAtDispatch (run : SubprocBehavior) (stopAt : Option Nat) : Bool :=
  match stopAt with
  | some k => decide (k ≤ run.lines.length + 1)
  | none => false

/-- The output lines the loop actually read and parsed before exiting
(all of them, or the first `k` when iteration `k` observed the stop
flag). -/
def consumedLines (run : SubprocBehavior) (stopAt : Option Nat) : List String :=
  match stopAt with
  | some k => run.lines.take k
  | none => run.lines

/-- `rc = self.process.poll()` at line 281: after a `terminate` break
it is whatever `poll` reports for the just-terminated process; after
an EOF break the process has exited and `poll` reports its exit
code. -/
def rcAfterLoop (run : SubprocBehavior) (stopAt : Option Nat) : Option Int :=
  if stopObservedInLoop run stopAt then run.termPoll else some run.exitCode

/-- Python `str` of the optional exit code as interpolated in
`f"Process failed (exit code ...)"`. -/
def pyOptIntStr : Option Int → String
  | none => "None"
  | some n => toString n

/-- Python whitespace for the default `str.strip()`. -/
def isPySpace (c : Char) : Bool :=
  c = ' ' || c = '\t' || c = '\n' || c = '\r' || c = '\x0b' || c = '\x0c'

/-- Python `line.strip()`: remove leading and trailing whitespace. -/
def pyStrip (s : String) : String :=
  String.mk (((s.data.dropWhile isPySpace).reverse.dropWhile isPySpace).reverse)

/-- Messages published per consumed line: each line is stripped and
classified (line 276-278). -/
def perLineMsgs (run : SubprocBehavior) (stopAt : Option Nat)
    (task_id : String) : List Msg :=
  (consumedLines run stopAt).flatMap (fun l => parse_output (pyStrip l) task_id)

/-- The terminal dispatch at lines 283-292: `rc == 0` publishes the
completed status and the synthetic 100% progress message; otherwise a
set stop flag publishes the cancelled status; otherwise the error
message carrying the exit code. -/
def loopExitMsgs (rc : Option Int) (flag : Bool) (task_id : String) : List Msg :=
  if rc = some 0 then
    [⟨"status", MsgPayload.text "Download Completed", task_id⟩,
     ⟨"progress", MsgPayload.progFull "100%" "00:00" "0MiB/s", task_id⟩]
  else if flag then
    [⟨"status", MsgPayload.text "Download Cancelled", task_id⟩]
  else
    [⟨"error",
      MsgPayload.text ("Process failed (exit code " ++ pyOptIntStr rc ++ ")"),
      task_id⟩]

/-- The queue messages `YtDlpWrapper.download` publishes for one run
(lines 263-292): the per-line classifications of the loop followed by
the terminal dispatch. -/
def download (run : SubprocBehavior) (stopAt : Option Nat)
    (task_id : String) : List Msg :=
  perLineMsgs run stopAt task_id ++
    loopExitMsgs (rcAfterLoop run stopAt) (stopSetAtDispatch run stopAt) task_id

/-- `DownloadManager._download_worker` (download_manager.py lines
75-95): runs the blocking `wrapper.download` call — abstracted here as
its outcome `body`, either the messages a normal return published
(for a subprocess run `run` cancelled at `stopAt` this is
`Except.ok (download run stopAt task_id)`) or an escaping exception —
then the `except` arm swallows any exception (logging only, no queue
message), and the `finally` arm deletes the task id from
`active_downloads` when present.  Returns the manager state after the
worker thread ends and the messages published. -/
def download_worker (dm : DownloadManager) (task_id : String)
    (body : Except PyError (List Msg)) : DownloadManager × List Msg :=
  let published := match body with
    | Except.ok ms => ms
    | Except.error _ => []
  (⟨removeTask dm.active_downloads task_id⟩, published)

/-! Helper lemmas. -/

/-- Deleting a key from the association-list dict makes it
unfindable. -/
theorem lookupTask_removeTask (l : List (String × YtDlpWrapper)) (id : String) :
    lookupTask (removeTask l id) id = none := by
  induction l with
  | nil => rfl
  | cons kv rest ih =>
    by_cases h : kv.1 = id
    · simpa [removeTask, List.filter, h] using ih
    · simpa [removeTask, List.filter, h, lookupTask] using ih

/-- Non-membership distributes over an if-then-else of lists. -/
theorem not_mem_ite_list {x : String} {c : Prop} [Decidable c]
    {a b : List String} (ha : x ∉ a) (hb : x ∉ b) :
    x ∉ (if c then a else b) := by
  split_ifs <;> assumption

/-! Theorems settling the claims. -/

/-- C10: invoking `YtDlpWrapper.cancel` while `self.process` is still
`None` (the window between task registration and subprocess spawn) is
a complete no-op: the wrapper state, the stop event included, is
unchanged, so such a cancellation request is lost. -/
theorem c10_cancel_before_spawn_noop (w : YtDlpWrapper)
    (h : w.process = none) : YtDlpWrapper.cancel w = w := by
  simp [YtDlpWrapper.cancel, h]

theorem c10_witness :
    (YtDlpWrapper.mk none false "yt-dlp" "").process = none ∧
    YtDlpWrapper.cancel ⟨none, false, "yt-dlp", ""⟩ = ⟨none, false, "yt-dlp", ""⟩ :=
  ⟨rfl, c10_cancel_before_spawn_noop ⟨none, false, "yt-dlp", ""⟩ rfl⟩

/-- C9: after the worker's execution unit ends — whatever the outcome
of the blocking `wrapper.download` call, normal return or escaping
exception — the task id is absent from `active_downloads`: the
`finally` block of `_download_worker` deletes it on every exit
path. -/
theorem c9_worker_always_deregisters (dm : DownloadManager)
    (task_id : String) (body : Except PyError (List Msg)) :
    lookupTask (download_worker dm task_id body).1.active_downloads task_id = none :=
  lookupTask_removeTask dm.active_downloads task_id

/-- C1: the code is broken where the claim expects the stop flag to be
set.  `DownloadManager.cancel_download` on a registered, running task
looks up the attribute `stop` on the wrapper, but `class YtDlpWrapper`
defines `cancel`, not `stop`, so the call raises `AttributeError`:
the registry and the wrapper — its stop event in particular — are
unchanged, and no event is published; the worker can never observe a
cancellation. -/
theorem c1_cancel_download_raises :
    cancel_download ⟨[("t", ⟨some 1234, false, "yt-dlp", ""⟩)]⟩ "t" =
      (⟨[("t", ⟨some 1234, false, "yt-dlp", ""⟩)]⟩, [],
        Except.error (PyError.attributeError "YtDlpWrapper" "stop")) ∧
    lookupTask [("t", ⟨some 1234, false, "yt-dlp", ""⟩)] "t" =
      some ⟨some 1234, false, "yt-dlp", ""⟩ := by
  constructor <;> rfl

/-- C2 counterexample: for an unknown task id, `cancel_download`
returns Python `None` — not the boolean `false` (nor `true`) the claim
states. -/
theorem c2_counterexample :
    (cancel_download ⟨[]⟩ "x").2.2 = Except.ok none ∧
    (Except.ok (none : Option Bool) : Except PyError (Option Bool)) ≠
      Except.ok (some false) ∧
    (Except.ok (none : Option Bool) : Except PyError (Option Bool)) ≠
      Except.ok (some true) := by
  refine ⟨rfl, ?_, ?_⟩ <;> simp

/-- C2 amended: `cancel_download` on an unknown or already-finished
(hence deregistered) task id publishes no event, raises nothing,
leaves the registry unchanged, and returns `None` (the function has no
return statement, so it never returns a boolean). -/
theorem c2_amended_unknown_id_noop (dm : DownloadManager)
    (task_id : String)
    (h : lookupTask dm.active_downloads task_id = none) :
    cancel_download dm task_id = (dm, [], Except.ok none) := by
  simp [cancel_download, h]

theorem c2_witness :
    lookupTask (DownloadManager.mk []).active_downloads "x" = none ∧
    cancel_download ⟨[]⟩ "x" = (⟨[]⟩, [], Except.ok none) :=
  ⟨rfl, c2_amended_unknown_id_noop ⟨[]⟩ "x" rfl⟩

/-- C6: when the external binary cannot be located, the wrapper
constructor inside `start_download` raises before the registry
insertion and before the worker thread is spawned: the exception
propagates to the caller, the manager state is unchanged (no task
registered), and no event is published. -/
theorem c6_launch_failure_before_registration (env : FsEnv)
    (st : SettingsManager) (dm : DownloadManager) (task_id url : String)
    (options : DlOptions) (e : PyError)
    (h : find_ytdlp_executable env (settingsGetOr st "ytdlp_path" "") =
      Except.error e) :
    start_download env st dm task_id url options = (dm, [], Except.error e) := by
  simp [start_download, mkYtDlpWrapper, h]

theorem c6_witness :
    find_ytdlp_executable ⟨false, false, "", false, false, "", none⟩
        (settingsGetOr ⟨[]⟩ "ytdlp_path" "") =
      Except.error (PyError.fileNotFoundError
        "yt-dlp not found. Please download it and configure the path in Settings.") ∧
    start_download ⟨false, false, "", false, false, "", none⟩ ⟨[]⟩ ⟨[]⟩
        "task-1" "https://example.invalid/v" ⟨none, none, none, none, none⟩ =
      (⟨[]⟩, [], Except.error (PyError.fileNotFoundError
        "yt-dlp not found. Please download it and configure the path in Settings.")) :=
  ⟨rfl, c6_launch_failure_before_registration _ _ _ _ _ _ _ rfl⟩

/-- C7: on loop exit the terminal dispatch inspects the exit code in
the claimed order — `rc == 0` publishes the completed status followed
by the synthetic 100% progress message; otherwise a set stop flag
publishes the cancelled status; otherwise the error message carrying
the exit code.  The three hypothesis sets are mutually exclusive and
exhaustive, so exactly one branch fires for every run. -/
theorem c7_terminal_dispatch (run : SubprocBehavior) (stopAt : Option Nat)
    (task_id : String) :
    (rcAfterLoop run stopAt = some 0 →
      download run stopAt task_id = perLineMsgs run stopAt task_id ++
        [⟨"status", MsgPayload.text "Download Completed", task_id⟩,
         ⟨"progress", MsgPayload.progFull "100%" "00:00" "0MiB/s", task_id⟩]) ∧
    (rcAfterLoop run stopAt ≠ some 0 → stopSetAtDispatch run stopAt = true →
      download run stopAt task_id = perLineMsgs run stopAt task_id ++
        [⟨"status", MsgPayload.text "Download Cancelled", task_id⟩]) ∧
    (rcAfterLoop run stopAt ≠ some 0 → stopSetAtDispatch run stopAt = false →
      download run stopAt task_id = perLineMsgs run stopAt task_id ++
        [⟨"error", MsgPayload.text ("Process failed (exit code " ++
            pyOptIntStr (rcAfterLoop run stopAt) ++ ")"), task_id⟩]) := by
  refine ⟨fun h0 => ?_, fun h0 hf => ?_, fun h0 hf => ?_⟩
  · simp [download, loopExitMsgs, h0]
  · simp [download, loopExitMsgs, h0, hf]
  · simp [download, loopExitMsgs, h0, hf]

theorem c7_witness :
    rcAfterLoop ⟨["[download] 100% done"], 0, none⟩ none = some 0 ∧
    download ⟨["[download] 100% done"], 0, none⟩ none "t" =
      perLineMsgs ⟨["[download] 100% done"], 0, none⟩ none "t" ++
        [⟨"status", MsgPayload.text "Download Completed", "t"⟩,
         ⟨"progress", MsgPayload.progFull "100%" "00:00" "0MiB/s", "t"⟩] :=
  ⟨rfl, (c7_terminal_dispatch ⟨["[download] 100% done"], 0, none⟩ none "t").1 rfl⟩

/-- C3 counterexample: the line `45.2%` matches the percent rule, yet
`_parse_output` still forwards it as a log message in addition to the
progress message — the claim that a line is forwarded as Log only when
no earlier rule matched is false. -/
theorem c3_counterexample :
    parse_output "45.2%" "t" =
      [⟨"progress", MsgPayload.progRaw "45.2%" "45.2%", "t"⟩,
       ⟨"log", MsgPayload.text "45.2%", "t"⟩] ∧
    (⟨"log", MsgPayload.text "45.2%", "t"⟩ : Msg) ∈ parse_output "45.2%" "t" ∧
    (⟨"progress", MsgPayload.progRaw "45.2%" "45.2%", "t"⟩ : Msg) ∈
      parse_output "45.2%" "t" := by
  refine ⟨rfl, ?_, ?_⟩ <;> decide

/-- C3 amended: for every input line, classification emits at most one
structured (Progress/Status) event, chosen by the first matching rule
in order (percent rule, then phase-marker rule, then
Downloading/Extracting rule) — and, in addition, every line is
forwarded as exactly one Log event, also when a Progress or Status
event was emitted. -/
theorem c3_amended_classification (line task_id : String) :
    parse_output line task_id =
      structuredMsg line task_id ++ [⟨"log", MsgPayload.text line, task_id⟩] ∧
    (structuredMsg line task_id).length ≤ 1 ∧
    (∀ p, findPercent line = some p →
      structuredMsg line task_id =
        [⟨"progress", MsgPayload.progRaw (p ++ "%") line, task_id⟩]) ∧
    (findPercent line = none → hasPhaseMarker line = true →
      structuredMsg line task_id = [⟨"status", MsgPayload.text line, task_id⟩]) ∧
    (findPercent line = none → hasPhaseMarker line = false →
      hasDownloadingExtracting line = true →
      structuredMsg line task_id = [⟨"status", MsgPayload.text line, task_id⟩]) ∧
    (findPercent line = none → hasPhaseMarker line = false →
      hasDownloadingExtracting line = false →
      structuredMsg line task_id = []) := by
  refine ⟨rfl, ?_, ?_, ?_, ?_, ?_⟩
  · rcases h : findPercent line with _ | p <;> simp [structuredMsg, h]
    split_ifs <;> simp
  · intro p hp; simp [structuredMsg, hp]
  · intro h0 h1; simp [structuredMsg, h0, h1]
  · intro h0 h1 h2; simp [structuredMsg, h0, h1, h2]
  · intro h0 h1 h2; simp [structuredMsg, h0, h1, h2]

theorem c3_witness :
    parse_output "[download] Destination: clip.mp4" "t" =
      structuredMsg "[download] Destination: clip.mp4" "t" ++
        [⟨"log", MsgPayload.text "[download] Destination: clip.mp4", "t"⟩] ∧
    structuredMsg "[download] Destination: clip.mp4" "t" =
      [⟨"status", MsgPayload.text "[download] Destination: clip.mp4", "t"⟩] :=
  ⟨(c3_amended_classification "[download] Destination: clip.mp4" "t").1,
   (c3_amended_classification "[download] Destination: clip.mp4" "t").2.2.2.1
     (by decide) (by decide)⟩

/-- C5 counterexample: with `download_video` explicitly false,
`audio_only` true and a format selector set, the audio-extraction
branch is skipped (its condition also requires `download_video`) and
the `elif` adds the explicit selector: the command contains `-f` with
the selector and no `-x`, contradicting the claim as stated for this
configuration. -/
theorem c5_counterexample :
    "-f" ∈ build_cmd ⟨none, false, "yt-dlp", ""⟩ "https://example.invalid/v"
        "./%(title)s.%(ext)s" "" ""
        ⟨some false, some true, some "720p-selector", none, none⟩ ∧
    "720p-selector" ∈ build_cmd ⟨none, false, "yt-dlp", ""⟩
        "https://example.invalid/v" "./%(title)s.%(ext)s" "" ""
        ⟨some false, some true, some "720p-selector", none, none⟩ ∧
    "-x" ∉ build_cmd ⟨none, false, "yt-dlp", ""⟩ "https://example.invalid/v"
        "./%(title)s.%(ext)s" "" ""
        ⟨some false, some true, some "720p-selector", none, none⟩ := by
  refine ⟨?_, ?_, ?_⟩ <;> decide

/-- C5 amended: whenever `audio_only` is truthy and `download_video`
is truthy (true, or absent — its default), the built command contains
the audio-extraction flags and omits the `-f` selector flag even when
an explicit format selector is set; the side conditions merely say
that no caller-supplied string is itself the literal `-f`. -/
theorem c5_amended_audio_priority (w : YtDlpWrapper)
    (url output_template cookies_path cookies_browser : String)
    (options : DlOptions)
    (haudio : options.audio_only.getD false = true)
    (hvideo : options.download_video.getD true = true)
    (h1 : w.ytdlp_path ≠ "-f") (h2 : output_template ≠ "-f")
    (h3 : parentDir w.ffmpeg_path ≠ "-f") (h4 : cookies_path ≠ "-f")
    (h5 : cookies_browser ≠ "-f") (h6 : url ≠ "-f") :
    "-x" ∈ build_cmd w url output_template cookies_path cookies_browser options ∧
    "--audio-format" ∈
      build_cmd w url output_template cookies_path cookies_browser options ∧
    "-f" ∉ build_cmd w url output_template cookies_path cookies_browser options := by
  have hx : ∀ s : String,
      s ∈ (["-x", "--audio-format", "mp3", "--audio-quality", "0"] : List String) →
      s ∈ build_cmd w url output_template cookies_path cookies_browser options := by
    intro s hs
    simp only [build_cmd, haudio, hvideo, Bool.and_self, if_true]
    exact List.mem_append_left _ (List.mem_append_left _ (List.mem_append_left _
      (List.mem_append_left _ (List.mem_append_left _ (List.mem_append_right _ hs)))))
  refine ⟨hx _ (by decide), hx _ (by decide), ?_⟩
  simp only [build_cmd, haudio, hvideo, Bool.and_self, if_true, Bool.not_true,
    Bool.false_eq_true, if_false]
  refine List.not_mem_append (List.not_mem_append (List.not_mem_append
    (List.not_mem_append (List.not_mem_append (List.not_mem_append
      (List.not_mem_append ?_ ?_) ?_) ?_) ?_) ?_) ?_) ?_
  · simp [h1.symm, h2.symm]
  · simp
  · decide
  · exact not_mem_ite_list (by decide) (by simp)
  · exact not_mem_ite_list (by decide) (by simp)
  · exact not_mem_ite_list (by simp [h3.symm]) (by simp)
  · exact not_mem_ite_list (by simp [h4.symm])
      (not_mem_ite_list (by simp [h5.symm]) (by simp))
  · simp [h6.symm]

theorem c5_witness :
    "-x" ∈ build_cmd ⟨none, false, "yt-dlp", ""⟩ "https://example.invalid/v"
        "./%(title)s.%(ext)s" "" ""
        ⟨some true, some true, some "720p-selector", none, none⟩ ∧
    "--audio-format" ∈ build_cmd ⟨none, false, "yt-dlp", ""⟩
        "https://example.invalid/v" "./%(title)s.%(ext)s" "" ""
        ⟨some true, some true, some "720p-selector", none, none⟩ ∧
    "-f" ∉ build_cmd ⟨none, false, "yt-dlp", ""⟩ "https://example.invalid/v"
        "./%(title)s.%(ext)s" "" ""
        ⟨some true, some true, some "720p-selector", none, none⟩ :=
  c5_amended_audio_priority ⟨none, false, "yt-dlp", ""⟩ _ _ _ _
    ⟨some true, some true, some "720p-selector", none, none⟩
    rfl rfl (by decide) (by decide) (by decide) (by decide) (by decide) (by decide)

/-- A successful anchored match at the head of the haystack makes the
left-to-right search succeed. -/
theorem searchPercent_isSome_of_head (cs : List Char)
    (h : (matchPercentAt cs).isSome) : (searchPercent cs).isSome := by
  cases cs with
  | nil => simp [show matchPercentAt [] = none from rfl] at h
  | cons c cs =>
    unfold searchPercent
    cases hm : matchPercentAt (c :: cs) with
    | none => rw [hm] at h; simp at h
    | some s => simp [hm]

/-- A successful anchored match at any position makes the
left-to-right search succeed. -/
theorem searchPercent_isSome_append (a rest : List Char)
    (h : (matchPercentAt rest).isSome) :
    (searchPercent (a ++ rest)).isSome := by
  induction a with
  | nil => simpa using searchPercent_isSome_of_head rest h
  | cons c a ih =>
    simp only [List.cons_append]
    unfold searchPercent
    cases hm : matchPercentAt (c :: (a ++ rest)) with
    | none => simpa [hm] using ih
    | some s => simp [hm]

/-- The anchored matcher succeeds on a run of one to three digits
followed by a dot, a digit and a percent sign. -/
theorem matchPercentAt_decomp (ds : List Char) (d : Char) (b : List Char)
    (hall : ds.all Char.isDigit = true) (hlen1 : 1 ≤ ds.length)
    (hlen3 : ds.length ≤ 3) (hd : d.isDigit = true) :
    (matchPercentAt (ds ++ '.' :: d :: '%' :: b)).isSome := by
  have hdot : ('.' : Char).isDigit = false := by decide
  match ds with
  | [] => simp at hlen1
  | [x] =>
    simp only [List.all_cons, List.all_nil, Bool.and_true] at hall
    simp [matchPercentAt, tryDigits, hall, hd, hdot]
  | [x, y] =>
    simp only [List.all_cons, List.all_nil, Bool.and_true,
      Bool.and_eq_true] at hall
    simp [matchPercentAt, tryDigits, hall.1, hall.2, hd, hdot]
  | [x, y, z] =>
    simp only [List.all_cons, List.all_nil, Bool.and_true,
      Bool.and_eq_true] at hall
    simp [matchPercentAt, tryDigits, hall.1, hall.2.1, hall.2.2, hd, hdot]
  | _ :: _ :: _ :: _ :: _ => simp at hlen3

/-- C4: any line containing a run of one to three digits, a dot,
exactly one digit and an immediately following percent sign is
classified as a progress message carrying the extracted percent
string; and the three round-trip examples of the claim evaluate as
stated — `12.34%` (two fractional digits) matches no rule and is only
forwarded to the log. -/
theorem c4_percent_rule (line task_id : String) (a ds : List Char)
    (d : Char) (b : List Char)
    (hline : line.data = a ++ ds ++ '.' :: d :: '%' :: b)
    (hds : ds.all Char.isDigit = true) (hlen1 : 1 ≤ ds.length)
    (hlen3 : ds.length ≤ 3) (hd : d.isDigit = true) :
    (∃ p, findPercent line = some p ∧
      (parse_output line task_id).head? =
        some ⟨"progress", MsgPayload.progRaw (p ++ "%") line, task_id⟩) ∧
    parse_output "45.2% foo bar" "t" =
      [⟨"progress", MsgPayload.progRaw "45.2%" "45.2% foo bar", "t"⟩,
       ⟨"log", MsgPayload.text "45.2% foo bar", "t"⟩] ∧
    parse_output "99.9%" "t" =
      [⟨"progress", MsgPayload.progRaw "99.9%" "99.9%", "t"⟩,
       ⟨"log", MsgPayload.text "99.9%", "t"⟩] ∧
    parse_output "12.34%" "t" = [⟨"log", MsgPayload.text "12.34%", "t"⟩] := by
  refine ⟨?_, by decide, by decide, by decide⟩
  have hsome : (findPercent line).isSome := by
    unfold findPercent
    rw [hline, List.append_assoc]
    exact searchPercent_isSome_append a _
      (matchPercentAt_decomp ds d b hds hlen1 hlen3 hd)
  obtain ⟨p, hp⟩ := Option.isSome_iff_exists.mp hsome
  exact ⟨p, hp, by simp [parse_output, structuredMsg, hp]⟩

theorem c4_witness :
    ∃ p, findPercent "45.2% foo bar" = some p ∧
      (parse_output "45.2% foo bar" "w").head? =
        some ⟨"progress", MsgPayload.progRaw (p ++ "%") "45.2% foo bar", "w"⟩ :=
  (c4_percent_rule "45.2% foo bar" "w" [] ['4', '5'] '2' " foo bar".data
    (by decide) (by decide) (by decide) (by decide) (by decide)).1

/-- Prefix matching ignores everything at and after a separator
character that does not occur in the needle. -/
theorem startsWithL_append_sep (sep : Char) :
    ∀ (needle a b : List Char), needle.all (fun c => c ≠ sep) = true →
      startsWithL needle (a ++ sep :: b) = startsWithL needle a
  | [], _, _, _ => rfl
  | n :: ns, [], b, h => by
    simp only [List.all_cons, Bool.and_eq_true, decide_eq_true_eq] at h
    simp [startsWithL, h.1]
  | n :: ns, c :: a, b, h => by
    simp only [List.all_cons, Bool.and_eq_true] at h
    simp [startsWithL, startsWithL_append_sep sep ns a b h.2]

/-- Occurrence counting splits at a separator character that does not
occur in the needle. -/
theorem countOccL_append_sep (sep : Char) (needle : List Char)
    (hsep : needle.all (fun c => c ≠ sep) = true) (a b : List Char) :
    countOccL needle (a ++ sep :: b) =
      countOccL needle a + countOccL needle (sep :: b) := by
  induction a with
  | nil => simp [countOccL]
  | cons c a ih =>
    have hsw : startsWithL needle ((c :: a) ++ sep :: b) =
        startsWithL needle (c :: a) :=
      startsWithL_append_sep sep needle (c :: a) b hsep
    have h1 : countOccL needle ((c :: a) ++ sep :: b) =
        (if startsWithL needle ((c :: a) ++ sep :: b) = true then 1 else 0) +
          countOccL needle (a ++ sep :: b) := rfl
    have h2 : countOccL needle (c :: a) =
        (if startsWithL needle (c :: a) = true then 1 else 0) +
          countOccL needle a := rfl
    rw [h1, hsw, ih, h2]
    omega

/-- A non-empty needle whose head differs from the haystack head
occurs in the tail exactly as often as in the whole. -/
theorem countOccL_cons_ne (n : Char) (ns : List Char) (c : Char)
    (l : List Char) (h : n ≠ c) :
    countOccL (n :: ns) (c :: l) = countOccL (n :: ns) l := by
  simp [countOccL, startsWithL, h]

/-- Containment coincides with a positive occurrence count. -/
theorem containsL_iff_countOccL_pos (needle : List Char)
    (hne : needle ≠ []) :
    ∀ cs, containsL needle cs = true ↔ 0 < countOccL needle cs := by
  intro cs
  induction cs with
  | nil => simp [containsL, countOccL, List.isEmpty_iff, hne]
  | cons c cs ih =>
    simp only [containsL, countOccL, Bool.or_eq_true]
    cases h : startsWithL needle (c :: cs)
    · simpa [h] using ih
    · simp only [h, true_or, true_iff, if_true]
      omega

/-- C8 counterexample: a naming pattern already containing the
extension placeholder twice is left unchanged, so the resolved output
template contains the placeholder twice — not exactly once as the
claim states for every naming pattern. -/
theorem c8_counterexample :
    countOccL "%(ext)s".data
      (resolve_output_template "%(ext)s.%(ext)s" ".").data = 2 ∧
    countOccL "%(ext)s".data
      (resolve_output_template "%(ext)s.%(ext)s" ".").data ≠ 1 := by
  refine ⟨?_, ?_⟩ <;> decide

/-- C8 amended: for a download folder free of the extension
placeholder, a naming pattern lacking the placeholder gets exactly one
`.%(ext)s` appended — the resolved template then contains the
placeholder exactly once — while a pattern already containing it is
joined unchanged, the resolved template containing the placeholder
exactly as often as the pattern does (at least once, but possibly more
than once). -/
theorem c8_amended_ext_placeholder (naming_pattern download_folder : String)
    (hdf : countOccL "%(ext)s".data download_folder.data = 0) :
    (containsL "%(ext)s".data naming_pattern.data = false →
      resolve_output_template naming_pattern download_folder =
        download_folder ++ "/" ++ naming_pattern ++ ".%(ext)s" ∧
      countOccL "%(ext)s".data
        (resolve_output_template naming_pattern download_folder).data = 1) ∧
    (containsL "%(ext)s".data naming_pattern.data = true →
      resolve_output_template naming_pattern download_folder =
        download_folder ++ "/" ++ naming_pattern ∧
      countOccL "%(ext)s".data
        (resolve_output_template naming_pattern download_folder).data =
        countOccL "%(ext)s".data naming_pattern.data ∧
      0 < countOccL "%(ext)s".data naming_pattern.data) := by
  have hslash : "%(ext)s".data.all (fun c => c ≠ '/') = true := by decide
  have hdot : "%(ext)s".data.all (fun c => c ≠ '.') = true := by decide
  have hne : "%(ext)s".data ≠ [] := by decide
  have hhead : "%(ext)s".data = '%' :: "(ext)s".data := rfl
  have hself : countOccL "%(ext)s".data "%(ext)s".data = 1 := by decide
  constructor
  · intro h
    have hres : resolve_output_template naming_pattern download_folder =
        download_folder ++ "/" ++ naming_pattern ++ ".%(ext)s" := by
      simp [resolve_output_template, h]
    refine ⟨hres, ?_⟩
    rw [hres]
    have hdata : (download_folder ++ "/" ++ naming_pattern ++ ".%(ext)s").data =
        download_folder.data ++
          '/' :: (naming_pattern.data ++ '.' :: "%(ext)s".data) := by
      simp [String.data_append]
    rw [hdata, countOccL_append_sep '/' _ hslash]
    rw [hhead, countOccL_cons_ne _ _ _ _ (by decide), ← hhead]
    rw [countOccL_append_sep '.' _ hdot]
    rw [hhead, countOccL_cons_ne _ _ _ _ (by decide), ← hhead]
    have hnp : countOccL "%(ext)s".data naming_pattern.data = 0 := by
      have hcon : ¬ 0 < countOccL "%(ext)s".data naming_pattern.data := by
        intro hpos
        have hcontra :=
          (containsL_iff_countOccL_pos "%(ext)s".data hne naming_pattern.data).mpr hpos
        rw [h] at hcontra
        exact Bool.false_ne_true hcontra
      omega
    rw [hdf, hnp, hself]
  · intro h
    have hres : resolve_output_template naming_pattern download_folder =
        download_folder ++ "/" ++ naming_pattern := by
      simp [resolve_output_template, h]
    refine ⟨hres, ?_, ?_⟩
    · rw [hres]
      have hdata : (download_folder ++ "/" ++ naming_pattern).data =
          download_folder.data ++ '/' :: naming_pattern.data := by
        simp [String.data_append]
      rw [hdata, countOccL_append_sep '/' _ hslash]
      rw [hhead, countOccL_cons_ne _ _ _ _ (by decide), ← hhead, hdf]
      omega
    · exact (containsL_iff_countOccL_pos "%(ext)s".data hne naming_pattern.data).mp h

theorem c8_witness :
    countOccL "%(ext)s".data ".".data = 0 ∧
    containsL "%(ext)s".data "%(title)s".data = false ∧
    resolve_output_template "%(title)s" "." =
      "." ++ "/" ++ "%(title)s" ++ ".%(ext)s" ∧
    countOccL "%(ext)s".data
      (resolve_output_template "%(title)s" ".").data = 1 :=
  ⟨by decide, by decide,
    ((c8_amended_ext_placeholder "%(title)s" "." (by decide)).1 (by decide)).1,
    ((c8_amended_ext_placeholder "%(title)s" "." (by decide)).1 (by decide)).2⟩

end YtDlpGUI
